import Mathlib

/-!
Shallow embedding of `src/useApolloNetworkStatus.ts` from
react-apollo-network-status: the event-to-state reducer that aggregates
GraphQL operation lifecycle events into a `NetworkStatus` snapshot.

JavaScript `Record<string, number>` objects are modelled as association
lists `List (String × Int)`; the object spread `{...state, [k]: v}` is
`setKey` (replace the first binding of `k`, or append), and property
lookup with default 0 (`const {[k]: value = 0} = state`) is `lookupOr0`.
JavaScript numbers only ever undergo `+1`, `-1` and `Math.max (·, 0)`
here, so `Int` is a faithful model.

Reference identity (JavaScript `===`) is modelled alongside the value
semantics: each sub-reducer either returns its input object unchanged or
a freshly allocated object/primitive, and the `...Fresh` / `...RefChanged`
functions record exactly which syntactic branch allocates, mirroring the
`!==` comparisons in the top-level reducer's `haveValuesChanged` check.
-/

/-- `OperationTypeNode` from graphql-js: the kind of an operation definition. -/
inductive OperationTypeNode where
  | query
  | mutation
  | subscription
deriving DecidableEq

/-- A definition inside a GraphQL document: either an `OperationDefinition`
with its operation kind, or any other definition kind (e.g. a fragment). -/
inductive DefinitionNode where
  | operationDefinition (operation : OperationTypeNode)
  | otherDefinition
deriving DecidableEq

/-- `DocumentNode`: a GraphQL document, a list of definitions. -/
structure DocumentNode where
  definitions : List DefinitionNode
deriving DecidableEq

/-- The per-call context of an operation; `useApolloNetworkStatus` is the
opt-out flag read by `defaultShouldHandleOperation` (`none` models an
absent key, i.e. `undefined`). -/
structure OperationContext where
  useApolloNetworkStatus : Option Bool
deriving DecidableEq

/-- An Apollo `Operation`: its name, its query document and its context. -/
structure Operation where
  operationName : String
  query : DocumentNode
  context : OperationContext
deriving DecidableEq

/-- A network-level error (`Error | ServerError | ServerParseError`),
abstracted to its message. -/
structure NetworkError where
  message : String
deriving DecidableEq

/-- A GraphQL application-level error, abstracted to its message. -/
structure GraphQLError where
  message : String
deriving DecidableEq

/-- `ExecutionResult` from graphql-js: optional data and an optional
(possibly empty) list of errors. `none` models an absent field. -/
structure ExecutionResult where
  data : Option String
  errors : Option (List GraphQLError)
deriving DecidableEq

/-- `ActionTypes`: the four lifecycle event kinds. -/
inductive ActionTypes where
  | REQUEST
  | ERROR
  | SUCCESS
  | CANCEL
deriving DecidableEq

/-- The payload of a `NetworkStatusAction`: the operation, plus the
`networkError` carried by ERROR events and the `result` carried by
SUCCESS events (optional fields model the TypeScript optionals). -/
structure NetworkStatusActionPayload where
  operation : Operation
  networkError : Option NetworkError
  result : Option ExecutionResult
deriving DecidableEq

/-- `NetworkStatusAction`: a lifecycle event consumed by the reducer. -/
structure NetworkStatusAction where
  type : ActionTypes
  payload : NetworkStatusActionPayload
deriving DecidableEq

/-- `OperationError`: the record built by `latestOperationErrorByType`;
optional fields mirror the TypeScript type (absent = `none`). -/
structure OperationError where
  networkError : Option NetworkError
  operation : Operation
  response : Option ExecutionResult
  graphQLErrors : Option (List GraphQLError)
deriving DecidableEq

/-- `NetworkStatus`: the snapshot state of the reducer. -/
structure NetworkStatus where
  pendingQueries : List (String × Int)
  pendingMutations : List (String × Int)
  numPendingQueries : Int
  numPendingMutations : Int
  queryError : Option OperationError
  mutationError : Option OperationError
deriving DecidableEq

/-- Property lookup with default 0: `const {[name]: value = 0} = state`. -/
def lookupOr0 : List (String × Int) → String → Int
  | [], _ => 0
  | (k, v) :: rest, name => if k = name then v else lookupOr0 rest name

/-- Object spread with a computed key, `{...state, [name]: v}`: replaces
the first binding of `name` in place, or appends a new binding. -/
def setKey : List (String × Int) → String → Int → List (String × Int)
  | [], name, v => [(name, v)]
  | (k, w) :: rest, name, v =>
      if k = name then (name, v) :: rest else (k, w) :: setKey rest name v

/-- Sum of the values of a `Record<string, number>`. -/
def sumValues : List (String × Int) → Int
  | [] => 0
  | (_, v) :: rest => v + sumValues rest

/-- `isOperationType`: whether any definition of the operation's document
is an `OperationDefinition` of the given kind. -/
def isOperationType (operation : Operation) (t : OperationTypeNode) : Bool :=
  operation.query.definitions.any fun d =>
    match d with
    | .operationDefinition op => op = t
    | .otherDefinition => false

/-- `pendingOperationsByType` (the reducer returned by
`pendingOperations(type)`): per-name in-flight counts for one kind. -/
def pendingOperationsByType (t : OperationTypeNode)
    (state : List (String × Int)) (action : NetworkStatusAction) :
    List (String × Int) :=
  if !isOperationType action.payload.operation t then state
  else
    let operationName := action.payload.operation.operationName
    let value := lookupOr0 state operationName
    match action.type with
    | .REQUEST => setKey state operationName (value + 1)
    | .ERROR => setKey state operationName (max (value - 1) 0)
    | .SUCCESS => setKey state operationName (max (value - 1) 0)
    | .CANCEL => setKey state operationName (max (value - 1) 0)

/-- `pendingOperationsByType` returns a freshly allocated object exactly
when the type guard passes: every switch branch builds an object literal. -/
def pendingOperationsFresh (t : OperationTypeNode)
    (action : NetworkStatusAction) : Bool :=
  isOperationType action.payload.operation t

/-- `numPendingOperationsByType` (the reducer returned by
`numPendingOperations(type)`): the scalar in-flight total for one kind. -/
def numPendingOperationsByType (t : OperationTypeNode)
    (state : Int) (action : NetworkStatusAction) : Int :=
  if !isOperationType action.payload.operation t then state
  else
    match action.type with
    | .REQUEST => state + 1
    | .ERROR => max (state - 1) 0
    | .SUCCESS => max (state - 1) 0
    | .CANCEL => max (state - 1) 0

/-- `latestOperationErrorByType` (the reducer returned by
`latestOperationError(type)`): the latest terminal error for one kind.
The SUCCESS guard `if (result && result.errors)` is JavaScript
truthiness: it passes whenever the `errors` field is present, even as an
empty array (arrays are always truthy). -/
def latestOperationErrorByType (t : OperationTypeNode)
    (state : Option OperationError) (action : NetworkStatusAction) :
    Option OperationError :=
  if !isOperationType action.payload.operation t then state
  else
    match action.type with
    | .REQUEST => none
    | .ERROR =>
        some { networkError := action.payload.networkError,
               operation := action.payload.operation,
               response := none, graphQLErrors := none }
    | .SUCCESS =>
        match action.payload.result with
        | some result =>
            match result.errors with
            | some errs =>
                some { networkError := none,
                       operation := action.payload.operation,
                       response := some result,
                       graphQLErrors := some errs }
            | none => state
        | none => state
    | .CANCEL => state

/-- Whether `latestOperationErrorByType` returns something that compares
`!==` to its input: `undefined !== undefined` is false, a fresh object is
`!==` everything, and returning `state` itself is never a change. -/
def latestOperationErrorRefChanged (t : OperationTypeNode)
    (state : Option OperationError) (action : NetworkStatusAction) : Bool :=
  if !isOperationType action.payload.operation t then false
  else
    match action.type with
    | .REQUEST => state.isSome
    | .ERROR => true
    | .SUCCESS =>
        match action.payload.result with
        | some result => result.errors.isSome
        | none => false
    | .CANCEL => false

/-- The `haveValuesChanged` check of the top-level reducer:
`Object.keys(state).some(key => updatedState[key] !== state[key])`.
Object-valued fields compare by reference (fresh allocation ⇒ changed),
number fields by value, optional-error fields per
`latestOperationErrorRefChanged`. -/
def haveValuesChanged (state : NetworkStatus)
    (action : NetworkStatusAction) : Bool :=
  pendingOperationsFresh .query action
  || pendingOperationsFresh .mutation action
  || (numPendingOperationsByType .query state.numPendingQueries action
       != state.numPendingQueries)
  || (numPendingOperationsByType .mutation state.numPendingMutations action
       != state.numPendingMutations)
  || latestOperationErrorRefChanged .query state.queryError action
  || latestOperationErrorRefChanged .mutation state.mutationError action

/-- The top-level `reducer`: subscription guard, then the six
sub-reducers over a shallow copy, then the identity-preserving return. -/
def reducer (state : NetworkStatus) (action : NetworkStatusAction) :
    NetworkStatus :=
  if isOperationType action.payload.operation .subscription then state
  else
    let updatedState : NetworkStatus :=
      { pendingQueries :=
          pendingOperationsByType .query state.pendingQueries action,
        pendingMutations :=
          pendingOperationsByType .mutation state.pendingMutations action,
        numPendingQueries :=
          numPendingOperationsByType .query state.numPendingQueries action,
        numPendingMutations :=
          numPendingOperationsByType .mutation state.numPendingMutations action,
        queryError :=
          latestOperationErrorByType .query state.queryError action,
        mutationError :=
          latestOperationErrorByType .mutation state.mutationError action }
    if haveValuesChanged state action then updatedState else state

/-- Whether `reducer` returns its input object itself (reference
identity): on the subscription guard, or when no field compared `!==`. -/
def reducerReturnsInput (state : NetworkStatus)
    (action : NetworkStatusAction) : Bool :=
  isOperationType action.payload.operation .subscription
  || !haveValuesChanged state action

/-- `initialState`. -/
def initialState : NetworkStatus :=
  { pendingQueries := [], pendingMutations := [],
    numPendingQueries := 0, numPendingMutations := 0,
    queryError := none, mutationError := none }

/-- `defaultShouldHandleOperation`:
`operation.getContext().useApolloNetworkStatus !== false`. -/
def defaultShouldHandleOperation (operation : Operation) : Bool :=
  operation.context.useApolloNetworkStatus != some false

/-- The gate built inside `useApolloNetworkStatus`, parametrised over the
inner reducer it wraps: if the predicate rejects the event's operation,
the inner reducer is never applied. -/
def gatedReducer (shouldHandleOperation : Operation → Bool)
    (inner : NetworkStatus → NetworkStatusAction → NetworkStatus)
    (state : NetworkStatus) (action : NetworkStatusAction) : NetworkStatus :=
  if !shouldHandleOperation action.payload.operation then state
  else inner state action

/-- `configuredReducer`: the gate wrapping the snapshot reducer. -/
def configuredReducer (shouldHandleOperation : Operation → Bool) :
    NetworkStatus → NetworkStatusAction → NetworkStatus :=
  gatedReducer shouldHandleOperation reducer

/-- Fold a finite event sequence through the reducer from `initialState`. -/
def applyEvents (actions : List NetworkStatusAction) : NetworkStatus :=
  actions.foldl reducer initialState

/-! ### Association-list lemmas -/

/-- All counts in a mapping are non-negative. -/
def CountsNonneg (m : List (String × Int)) : Prop :=
  ∀ p ∈ m, 0 ≤ p.2

theorem sumValues_setKey (m : List (String × Int)) (k : String) (v : Int) :
    sumValues (setKey m k v) = sumValues m + v - lookupOr0 m k := by
  induction m with
  | nil => simp [setKey, sumValues, lookupOr0]
  | cons p rest ih =>
      obtain ⟨k1, w⟩ := p
      by_cases h : k1 = k
      · subst h; simp [setKey, sumValues, lookupOr0]; ring
      · simp only [setKey, sumValues, lookupOr0, h, if_false, ite_false]
        rw [ih]; ring

theorem lookupOr0_setKey_self (m : List (String × Int)) (k : String) (v : Int) :
    lookupOr0 (setKey m k v) k = v := by
  induction m with
  | nil => simp [setKey, lookupOr0]
  | cons p rest ih =>
      obtain ⟨k1, w⟩ := p
      by_cases h : k1 = k
      · subst h; simp [setKey, lookupOr0]
      · simp [setKey, lookupOr0, h, ih]

theorem lookupOr0_nonneg (m : List (String × Int)) (k : String)
    (h : CountsNonneg m) : 0 ≤ lookupOr0 m k := by
  induction m with
  | nil => simp [lookupOr0]
  | cons p rest ih =>
      obtain ⟨k1, w⟩ := p
      by_cases hk : k1 = k
      · subst hk; simpa [lookupOr0] using h (k1, w) (by simp)
      · simp only [lookupOr0, hk, if_false, ite_false]
        exact ih fun q hq => h q (List.mem_cons_of_mem _ hq)

theorem sumValues_nonneg (m : List (String × Int))
    (h : CountsNonneg m) : 0 ≤ sumValues m := by
  induction m with
  | nil => simp [sumValues]
  | cons p rest ih =>
      obtain ⟨k1, w⟩ := p
      have hw : 0 ≤ w := h (k1, w) (by simp)
      have hr : 0 ≤ sumValues rest := ih fun q hq => h q (List.mem_cons_of_mem _ hq)
      simp only [sumValues]; omega

theorem lookupOr0_le_sumValues (m : List (String × Int)) (k : String)
    (h : CountsNonneg m) : lookupOr0 m k ≤ sumValues m := by
  induction m with
  | nil => simp [lookupOr0, sumValues]
  | cons p rest ih =>
      obtain ⟨k1, w⟩ := p
      have hw : 0 ≤ w := h (k1, w) (by simp)
      have hrest : CountsNonneg rest := fun q hq => h q (List.mem_cons_of_mem _ hq)
      by_cases hk : k1 = k
      · subst hk
        have := sumValues_nonneg rest hrest
        simp only [lookupOr0, sumValues, if_true, ite_true, eq_self_iff_true]
        omega
      · have := ih hrest
        simp only [lookupOr0, hk, if_false, ite_false, sumValues]; omega

theorem countsNonneg_setKey (m : List (String × Int)) (k : String) (v : Int)
    (h : CountsNonneg m) (hv : 0 ≤ v) : CountsNonneg (setKey m k v) := by
  induction m with
  | nil =>
      intro q hq
      simp only [setKey, List.mem_singleton] at hq
      subst hq; exact hv
  | cons p rest ih =>
      obtain ⟨k1, w⟩ := p
      have hrest : CountsNonneg rest := fun q hq => h q (List.mem_cons_of_mem _ hq)
      by_cases hk : k1 = k
      · subst hk
        intro q hq
        simp only [setKey, if_true, ite_true, eq_self_iff_true, List.mem_cons] at hq
        rcases hq with hq | hq
        · subst hq; exact hv
        · exact hrest q hq
      · intro q hq
        simp only [setKey, hk, if_false, ite_false, List.mem_cons] at hq
        rcases hq with hq | hq
        · subst hq; exact h (k1, w) (by simp)
        · exact ih hrest q hq

/-! ### Step lemmas for the sub-reducers -/

theorem countsNonneg_pendingOperationsByType (t : OperationTypeNode)
    (m : List (String × Int)) (a : NetworkStatusAction)
    (h : CountsNonneg m) : CountsNonneg (pendingOperationsByType t m a) := by
  rcases a with ⟨ty, p⟩
  by_cases hg : isOperationType p.operation t
  · have hv := lookupOr0_nonneg m p.operation.operationName h
    cases ty <;> simp only [pendingOperationsByType, hg, Bool.not_true,
      Bool.false_eq_true, if_false, ite_false] <;>
      exact countsNonneg_setKey _ _ _ h (by omega)
  · simpa [pendingOperationsByType, hg] using h

theorem numPendingOperationsByType_nonneg (t : OperationTypeNode)
    (n : Int) (a : NetworkStatusAction)
    (h : 0 ≤ n) : 0 ≤ numPendingOperationsByType t n a := by
  rcases a with ⟨ty, p⟩
  by_cases hg : isOperationType p.operation t
  · cases ty <;> simp only [numPendingOperationsByType, hg, Bool.not_true,
      Bool.false_eq_true, if_false, ite_false] <;> omega
  · simpa [numPendingOperationsByType, hg] using h

theorem sumValues_pendingOperationsByType (t : OperationTypeNode)
    (m : List (String × Int)) (n : Int) (a : NetworkStatusAction)
    (hnn : CountsNonneg m) (hsum : sumValues m = n)
    (hwf : a.type = .REQUEST ∨ isOperationType a.payload.operation t = false ∨
      0 < lookupOr0 m a.payload.operation.operationName) :
    sumValues (pendingOperationsByType t m a) =
      numPendingOperationsByType t n a := by
  rcases a with ⟨ty, p⟩
  by_cases hg : isOperationType p.operation t
  · have hle := lookupOr0_le_sumValues m p.operation.operationName hnn
    have hv := lookupOr0_nonneg m p.operation.operationName hnn
    cases ty <;>
      simp only [pendingOperationsByType, numPendingOperationsByType, hg,
        Bool.not_true, Bool.false_eq_true, if_false, ite_false] <;>
      rw [sumValues_setKey] <;>
      simp only [hg, Bool.true_eq_false, false_or] at hwf
    · omega
    · rcases hwf with hwf | hwf
      · exact absurd hwf (by simp)
      · omega
    · rcases hwf with hwf | hwf
      · exact absurd hwf (by simp)
      · omega
    · rcases hwf with hwf | hwf
      · exact absurd hwf (by simp)
      · omega
  · simp only [pendingOperationsByType, numPendingOperationsByType, hg,
      Bool.not_false, if_true, ite_true]
    exact hsum

/-! ### Reachability invariants -/

/-- The spec's consistency property: each scalar total equals the sum of
the corresponding per-name mapping. -/
def Consistent (s : NetworkStatus) : Prop :=
  sumValues s.pendingQueries = s.numPendingQueries ∧
  sumValues s.pendingMutations = s.numPendingMutations

/-- All per-name counts and both totals are non-negative. -/
def GoodCounts (s : NetworkStatus) : Prop :=
  CountsNonneg s.pendingQueries ∧ CountsNonneg s.pendingMutations ∧
  0 ≤ s.numPendingQueries ∧ 0 ≤ s.numPendingMutations

/-- A step is well-matched when every terminal event (SUCCESS, ERROR,
CANCEL) that the reducer would count down arrives while the per-name
count for its operation name is positive in each matching kind;
subscription events are exempt because the reducer ignores them. -/
def wfStep (s : NetworkStatus) (a : NetworkStatusAction) : Bool :=
  isOperationType a.payload.operation .subscription
  || (match a.type with
      | .REQUEST => true
      | _ =>
          (!isOperationType a.payload.operation .query
            || decide (0 < lookupOr0 s.pendingQueries
                 a.payload.operation.operationName))
          && (!isOperationType a.payload.operation .mutation
            || decide (0 < lookupOr0 s.pendingMutations
                 a.payload.operation.operationName)))

/-- A whole event sequence is well-matched from `s` when every step is
well-matched in the state the reducer has reached at that point. -/
def wfTrace : NetworkStatus → List NetworkStatusAction → Bool
  | _, [] => true
  | s, a :: rest => wfStep s a && wfTrace (reducer s a) rest

theorem goodCounts_reducer (s : NetworkStatus) (a : NetworkStatusAction)
    (h : GoodCounts s) : GoodCounts (reducer s a) := by
  obtain ⟨h1, h2, h3, h4⟩ := h
  by_cases hs : isOperationType a.payload.operation .subscription
  · simpa [reducer, hs] using ⟨h1, h2, h3, h4⟩
  · by_cases hc : haveValuesChanged s a
    · simp only [reducer, hs, Bool.false_eq_true, if_false, ite_false, hc,
        if_true, ite_true]
      exact ⟨countsNonneg_pendingOperationsByType _ _ _ h1,
        countsNonneg_pendingOperationsByType _ _ _ h2,
        numPendingOperationsByType_nonneg _ _ _ h3,
        numPendingOperationsByType_nonneg _ _ _ h4⟩
    · simpa [reducer, hs, hc] using ⟨h1, h2, h3, h4⟩

theorem wfStep_pending (s : NetworkStatus) (a : NetworkStatusAction)
    (hw : wfStep s a = true)
    (hs : isOperationType a.payload.operation .subscription = false) :
    (a.type = .REQUEST ∨ isOperationType a.payload.operation .query = false ∨
      0 < lookupOr0 s.pendingQueries a.payload.operation.operationName) ∧
    (a.type = .REQUEST ∨ isOperationType a.payload.operation .mutation = false ∨
      0 < lookupOr0 s.pendingMutations a.payload.operation.operationName) := by
  rcases a with ⟨ty, p⟩
  simp only [wfStep, hs, Bool.false_or] at hw
  cases ty with
  | REQUEST => exact ⟨Or.inl rfl, Or.inl rfl⟩
  | ERROR =>
      simp only [Bool.and_eq_true, Bool.or_eq_true, Bool.not_eq_true',
        decide_eq_true_eq] at hw
      exact ⟨Or.inr hw.1, Or.inr hw.2⟩
  | SUCCESS =>
      simp only [Bool.and_eq_true, Bool.or_eq_true, Bool.not_eq_true',
        decide_eq_true_eq] at hw
      exact ⟨Or.inr hw.1, Or.inr hw.2⟩
  | CANCEL =>
      simp only [Bool.and_eq_true, Bool.or_eq_true, Bool.not_eq_true',
        decide_eq_true_eq] at hw
      exact ⟨Or.inr hw.1, Or.inr hw.2⟩

theorem consistent_reducer (s : NetworkStatus) (a : NetworkStatusAction)
    (hg : GoodCounts s) (hc : Consistent s) (hw : wfStep s a = true) :
    Consistent (reducer s a) := by
  by_cases hs : isOperationType a.payload.operation .subscription
  · simpa [reducer, hs] using hc
  · have hp := wfStep_pending s a hw (by simpa using hs)
    by_cases hch : haveValuesChanged s a
    · simp only [reducer, hs, Bool.false_eq_true, if_false, ite_false, hch,
        if_true, ite_true]
      exact ⟨sumValues_pendingOperationsByType _ _ _ _ hg.1 hc.1 hp.1,
        sumValues_pendingOperationsByType _ _ _ _ hg.2.1 hc.2 hp.2⟩
    · simpa [reducer, hs, hch] using hc

theorem goodCounts_foldl (es : List NetworkStatusAction) :
    ∀ s : NetworkStatus, GoodCounts s → GoodCounts (es.foldl reducer s) := by
  induction es with
  | nil => intro s h; simpa using h
  | cons a rest ih =>
      intro s h
      exact ih (reducer s a) (goodCounts_reducer s a h)

theorem consistent_foldl (es : List NetworkStatusAction) :
    ∀ s : NetworkStatus, GoodCounts s → Consistent s → wfTrace s es = true →
      Consistent (es.foldl reducer s) := by
  induction es with
  | nil => intro s _ hc _; simpa using hc
  | cons a rest ih =>
      intro s hg hc hw
      simp only [wfTrace, Bool.and_eq_true] at hw
      exact ih (reducer s a) (goodCounts_reducer s a hg)
        (consistent_reducer s a hg hc hw.1) hw.2

theorem goodCounts_initialState : GoodCounts initialState := by
  refine ⟨?_, ?_, ?_, ?_⟩ <;> simp [initialState, CountsNonneg]

theorem consistent_initialState : Consistent initialState := by
  constructor <;> simp [initialState, sumValues]

/-! ### Concrete fixtures -/

/-- A document holding a single query operation definition. -/
def queryDoc : DocumentNode := { definitions := [.operationDefinition .query] }

/-- A document holding a single mutation operation definition. -/
def mutationDoc : DocumentNode :=
  { definitions := [.operationDefinition .mutation] }

/-- A document holding a single subscription operation definition. -/
def subscriptionDoc : DocumentNode :=
  { definitions := [.operationDefinition .subscription] }

/-- A document holding both a query and a mutation definition. -/
def queryMutationDoc : DocumentNode :=
  { definitions := [.operationDefinition .query, .operationDefinition .mutation] }

/-- A document holding a query and a subscription definition. -/
def querySubscriptionDoc : DocumentNode :=
  { definitions := [.operationDefinition .query,
                    .operationDefinition .subscription] }

/-- A document holding no operation definitions at all. -/
def fragmentOnlyDoc : DocumentNode := { definitions := [.otherDefinition] }

/-- A context with the opt-out flag absent. -/
def plainContext : OperationContext := { useApolloNetworkStatus := none }

/-- A context with `useApolloNetworkStatus: false`. -/
def optOutContext : OperationContext := { useApolloNetworkStatus := some false }

/-- An operation over the given document with a plain context. -/
def mkOperation (name : String) (doc : DocumentNode) : Operation :=
  { operationName := name, query := doc, context := plainContext }

/-- A REQUEST event for a query operation. -/
def requestQuery (name : String) : NetworkStatusAction :=
  { type := .REQUEST,
    payload := { operation := mkOperation name queryDoc,
                 networkError := none, result := none } }

/-- A SUCCESS event for a query operation with no result attached. -/
def successQuery (name : String) : NetworkStatusAction :=
  { type := .SUCCESS,
    payload := { operation := mkOperation name queryDoc,
                 networkError := none, result := none } }

/-- A SUCCESS event whose result carries a present but empty errors array. -/
def successQueryEmptyErrors (name : String) : NetworkStatusAction :=
  { type := .SUCCESS,
    payload := { operation := mkOperation name queryDoc,
                 networkError := none,
                 result := some { data := none, errors := some [] } } }

/-- An ERROR event for a query operation with a network error. -/
def errorQuery (name : String) : NetworkStatusAction :=
  { type := .ERROR,
    payload := { operation := mkOperation name queryDoc,
                 networkError := some { message := "net down" },
                 result := none } }

/-- A REQUEST event for a subscription operation. -/
def requestSubscription (name : String) : NetworkStatusAction :=
  { type := .REQUEST,
    payload := { operation := mkOperation name subscriptionDoc,
                 networkError := none, result := none } }

/-- A REQUEST event for an operation whose document holds both a query
and a mutation definition. -/
def requestQueryMutation (name : String) : NetworkStatusAction :=
  { type := .REQUEST,
    payload := { operation := mkOperation name queryMutationDoc,
                 networkError := none, result := none } }

/-- A CANCEL event for an operation whose document holds both a query
and a subscription definition. -/
def cancelQuerySubscription (name : String) : NetworkStatusAction :=
  { type := .CANCEL,
    payload := { operation := mkOperation name querySubscriptionDoc,
                 networkError := none, result := none } }

/-- A CANCEL event for an operation whose document holds no operation
definitions. -/
def cancelFragmentOnly (name : String) : NetworkStatusAction :=
  { type := .CANCEL,
    payload := { operation := mkOperation name fragmentOnlyDoc,
                 networkError := none, result := none } }

/-- A REQUEST event for a query operation that opted out via its context. -/
def optOutRequest : NetworkStatusAction :=
  { type := .REQUEST,
    payload := { operation := { operationName := "Opt", query := queryDoc,
                                context := optOutContext },
                 networkError := none, result := none } }

/-- A previously recorded GraphQL error for operation "Old". -/
def staleError : OperationError :=
  { networkError := none, operation := mkOperation "Old" queryDoc,
    response := none, graphQLErrors := some [{ message := "bad" }] }

/-- A quiescent snapshot in which the name "A" is tracked at count 0. -/
def idleWithZeroCount : NetworkStatus :=
  { pendingQueries := [("A", 0)], pendingMutations := [],
    numPendingQueries := 0, numPendingMutations := 0,
    queryError := none, mutationError := none }

/-- A quiescent snapshot with a recorded query error. -/
def erroredState : NetworkStatus :=
  { pendingQueries := [], pendingMutations := [],
    numPendingQueries := 0, numPendingMutations := 0,
    queryError := some staleError, mutationError := none }

/-! ### Claim theorems -/

/-- C1, counterexample: after `REQUEST query "A"` followed by
`SUCCESS query "B"` (a terminal event with no matching prior REQUEST),
the sum of `pendingQueries` values is 1 but `numPendingQueries` is 0:
the per-name clamp and the scalar clamp diverge, so the consistency
invariant does not hold for arbitrary event sequences. -/
theorem c1_counterexample :
    sumValues (applyEvents [requestQuery "A", successQuery "B"]).pendingQueries ≠
      (applyEvents [requestQuery "A", successQuery "B"]).numPendingQueries := by
  decide

/-- C1 (amended): for every snapshot reachable from `initialState` by a
well-matched event sequence — one in which each counted-down terminal
event arrives while the per-name count for its name is positive in every
matching kind — `numPendingQueries` equals the sum of `pendingQueries`
values and `numPendingMutations` equals the sum of `pendingMutations`
values. -/
theorem c1_consistency_wellMatched (es : List NetworkStatusAction)
    (hw : wfTrace initialState es = true) : Consistent (applyEvents es) :=
  consistent_foldl es initialState goodCounts_initialState
    consistent_initialState hw

/-- Witness for C1: a concrete well-matched trace. -/
theorem c1_consistency_wellMatched_witness :
    wfTrace initialState [requestQuery "A", successQuery "A"] = true ∧
    Consistent (applyEvents [requestQuery "A", successQuery "A"]) :=
  ⟨by decide,
   c1_consistency_wellMatched [requestQuery "A", successQuery "A"] (by decide)⟩

/-- C2, counterexample: a no-op transition of a matching kind — SUCCESS
with no errors while the prior query error is absent and the name's
count is already 0 — returns a value-equal fresh copy, not the identical
state object: the pending-count sub-reducer allocates a new mapping for
every event of its kind. -/
theorem c2_counterexample :
    reducer idleWithZeroCount (successQuery "A") = idleWithZeroCount ∧
    reducerReturnsInput idleWithZeroCount (successQuery "A") = false := by
  decide

/-- C2 (amended): applying the reducer with an event whose operation
type matches no tracked kind returns the identical state object; but a
matching-kind no-op transition (e.g. SUCCESS with no errors when the
prior error state was absent and the count was 0) returns a value-equal
fresh copy instead of the identical object. -/
theorem c2_identity_on_type_mismatch :
    (∀ (s : NetworkStatus) (a : NetworkStatusAction),
      isOperationType a.payload.operation .query = false →
      isOperationType a.payload.operation .mutation = false →
      reducer s a = s ∧ reducerReturnsInput s a = true) ∧
    (reducer idleWithZeroCount (successQuery "A") = idleWithZeroCount ∧
     reducerReturnsInput idleWithZeroCount (successQuery "A") = false) := by
  refine ⟨?_, by decide, by decide⟩
  intro s a hq hm
  have hch : haveValuesChanged s a = false := by
    simp [haveValuesChanged, pendingOperationsFresh, numPendingOperationsByType,
      latestOperationErrorRefChanged, hq, hm]
  by_cases hs : isOperationType a.payload.operation .subscription
  · exact ⟨by simp [reducer, hs], by simp [reducerReturnsInput, hs]⟩
  · exact ⟨by simp [reducer, hs, hch], by simp [reducerReturnsInput, hs, hch]⟩

/-- Witness for C2: an event whose document holds no operation
definitions leaves the state reference-identical. -/
theorem c2_identity_on_type_mismatch_witness :
    reducer initialState (cancelFragmentOnly "F") = initialState ∧
    reducerReturnsInput initialState (cancelFragmentOnly "F") = true :=
  c2_identity_on_type_mismatch.1 initialState (cancelFragmentOnly "F")
    (by decide) (by decide)

/-- C3, counterexample: a SUCCESS whose result carries a present but
empty errors array does not leave the prior error state unchanged — the
JavaScript truthiness check `result && result.errors` passes for an
empty array, so the error state is replaced even though the errors
sequence is not non-empty. -/
theorem c3_counterexample :
    latestOperationErrorByType .query none (successQueryEmptyErrors "A") ≠
      none := by
  decide

/-- C3 (amended): on a SUCCESS of the matching kind the error state is
replaced with `{graphQLErrors, response, operation}` whenever the result
carries an errors field at all (present, possibly empty); otherwise —
result absent or errors field absent — the prior error state is left
unchanged, so a clean success never clears a previously recorded error. -/
theorem c3_success_error_update (t : OperationTypeNode)
    (s : Option OperationError) (a : NetworkStatusAction)
    (hg : isOperationType a.payload.operation t = true)
    (ht : a.type = .SUCCESS) :
    latestOperationErrorByType t s a =
      (match a.payload.result with
       | some result =>
           (match result.errors with
            | some errs =>
                some { networkError := none,
                       operation := a.payload.operation,
                       response := some result, graphQLErrors := some errs }
            | none => s)
       | none => s) := by
  rcases a with ⟨ty, p⟩
  have hty : ty = .SUCCESS := ht
  subst hty
  rcases hr : p.result with _ | result
  · simp [latestOperationErrorByType, hg, hr]
  · rcases he : result.errors with _ | errs
    · simp [latestOperationErrorByType, hg, hr, he]
    · simp [latestOperationErrorByType, hg, hr, he]

/-- Witness for C3: a clean success (no result) leaves a previously
recorded error untouched. -/
theorem c3_success_error_update_witness :
    latestOperationErrorByType .query (some staleError) (successQuery "A") =
      some staleError := by
  have h := c3_success_error_update .query (some staleError) (successQuery "A")
    (by decide) rfl
  simpa using h

/-- C4: for every finite event sequence applied to `initialState` —
including sequences whose SUCCESS/ERROR/CANCEL events have no matching
prior REQUEST — every per-name count in both mappings and both totals
are non-negative. The reducer is a total Lean function over the whole
event domain, which models that no application throws. -/
theorem c4_nonnegativity (es : List NetworkStatusAction) (name : String) :
    0 ≤ lookupOr0 (applyEvents es).pendingQueries name ∧
    0 ≤ lookupOr0 (applyEvents es).pendingMutations name ∧
    0 ≤ (applyEvents es).numPendingQueries ∧
    0 ≤ (applyEvents es).numPendingMutations := by
  have h := goodCounts_foldl es initialState goodCounts_initialState
  exact ⟨lookupOr0_nonneg _ _ h.1, lookupOr0_nonneg _ _ h.2.1,
    h.2.2.1, h.2.2.2⟩

/-- Witness for C4: a concrete unmatched-terminal sequence. -/
theorem c4_nonnegativity_witness :
    0 ≤ lookupOr0 (applyEvents [successQuery "X", successQuery "X"]).pendingQueries "X" ∧
    0 ≤ lookupOr0 (applyEvents [successQuery "X", successQuery "X"]).pendingMutations "X" ∧
    0 ≤ (applyEvents [successQuery "X", successQuery "X"]).numPendingQueries ∧
    0 ≤ (applyEvents [successQuery "X", successQuery "X"]).numPendingMutations :=
  c4_nonnegativity [successQuery "X", successQuery "X"] "X"

/-- C5: on any event whose operation document contains a subscription
definition, the reducer returns its input state unchanged and
reference-identical: subscriptions never change counts or error fields. -/
theorem c5_subscription_identity (s : NetworkStatus) (a : NetworkStatusAction)
    (h : isOperationType a.payload.operation .subscription = true) :
    reducer s a = s ∧ reducerReturnsInput s a = true :=
  ⟨by simp [reducer, h], by simp [reducerReturnsInput, h]⟩

/-- Witness for C5: a concrete subscription REQUEST. -/
theorem c5_subscription_identity_witness :
    reducer idleWithZeroCount (requestSubscription "S") = idleWithZeroCount ∧
    reducerReturnsInput idleWithZeroCount (requestSubscription "S") = true :=
  c5_subscription_identity idleWithZeroCount (requestSubscription "S")
    (by decide)

/-- C6: whenever the kind-wide query error is set, a REQUEST event of
kind query — any operation name, not only the one that produced the
error — yields a state whose query error is absent. -/
theorem c6_request_clears_query_error (s : NetworkStatus)
    (a : NetworkStatusAction)
    (hq : isOperationType a.payload.operation .query = true)
    (hs : isOperationType a.payload.operation .subscription = false)
    (ht : a.type = .REQUEST)
    (he : s.queryError.isSome = true) :
    (reducer s a).queryError = none := by
  rcases a with ⟨ty, p⟩
  have hty : ty = .REQUEST := ht
  subst hty
  have hch : haveValuesChanged s ⟨.REQUEST, p⟩ = true := by
    simp [haveValuesChanged, pendingOperationsFresh, hq]
  simp only [reducer, hs, Bool.false_eq_true, if_false, ite_false, hch,
    if_true, ite_true]
  simp [latestOperationErrorByType, hq]

/-- Witness for C6: a stale error recorded for "Old" is cleared by a
REQUEST for the different name "B". -/
theorem c6_request_clears_query_error_witness :
    (reducer erroredState (requestQuery "B")).queryError = none :=
  c6_request_clears_query_error erroredState (requestQuery "B")
    (by decide) (by decide) rfl (by decide)

/-- C7: an ERROR event of a matching kind always overwrites that kind's
error state, whatever it held before, with exactly
`{networkError, operation}`: the `graphQLErrors` and `response` fields
of the new record are absent. -/
theorem c7_error_overwrites (t : OperationTypeNode)
    (s : Option OperationError) (a : NetworkStatusAction)
    (hg : isOperationType a.payload.operation t = true)
    (ht : a.type = .ERROR) :
    latestOperationErrorByType t s a =
      some { networkError := a.payload.networkError,
             operation := a.payload.operation,
             response := none, graphQLErrors := none } := by
  rcases a with ⟨ty, p⟩
  have hty : ty = .ERROR := ht
  subst hty
  simp [latestOperationErrorByType, hg]

/-- Witness for C7: overwriting a prior GraphQL error with a network
error drops the `graphQLErrors`/`response` fields. -/
theorem c7_error_overwrites_witness :
    latestOperationErrorByType .query (some staleError) (errorQuery "A") =
      some { networkError := some { message := "net down" },
             operation := mkOperation "A" queryDoc,
             response := none, graphQLErrors := none } :=
  c7_error_overwrites .query (some staleError) (errorQuery "A")
    (by decide) rfl

/-- C8: from `initialState`, two REQUESTs for query "GetUser" followed
by one SUCCESS for "GetUser" leave `pendingQueries.GetUser` at exactly
1: one terminal event decrements exactly one pending request. -/
theorem c8_two_requests_one_success :
    lookupOr0 (applyEvents [requestQuery "GetUser", requestQuery "GetUser",
      successQuery "GetUser"]).pendingQueries "GetUser" = 1 := by
  decide

/-- C9: when the configured `shouldHandleOperation` predicate rejects an
event's operation, the gated reducer returns the input state unchanged,
and it does so for every inner reducer — the snapshot reducer and its
sub-reducers are never applied to the event. -/
theorem c9_gate_skips_inner (f : Operation → Bool)
    (inner : NetworkStatus → NetworkStatusAction → NetworkStatus)
    (s : NetworkStatus) (a : NetworkStatusAction)
    (h : f a.payload.operation = false) :
    configuredReducer f s a = s ∧ gatedReducer f inner s a = s := by
  constructor <;> simp [configuredReducer, gatedReducer, h]

/-- Witness for C9: the default predicate rejects an opted-out
operation; an inner reducer that would overwrite the whole state is
never consulted. -/
theorem c9_gate_skips_inner_witness :
    configuredReducer defaultShouldHandleOperation idleWithZeroCount
      optOutRequest = idleWithZeroCount ∧
    gatedReducer defaultShouldHandleOperation (fun _ _ => initialState)
      idleWithZeroCount optOutRequest = idleWithZeroCount :=
  c9_gate_skips_inner defaultShouldHandleOperation (fun _ _ => initialState)
    idleWithZeroCount optOutRequest (by decide)

/-- C10: operation kind is decided by scanning the document's
definitions. A REQUEST whose document holds both a query and a mutation
definition (and no subscription) increments both totals and both
per-name counts in one event; any event whose document holds a
subscription definition — even alongside query or mutation definitions —
leaves the state untouched. -/
theorem c10_document_scan :
    (∀ (s : NetworkStatus) (a : NetworkStatusAction),
      isOperationType a.payload.operation .query = true →
      isOperationType a.payload.operation .mutation = true →
      isOperationType a.payload.operation .subscription = false →
      a.type = .REQUEST →
      (reducer s a).numPendingQueries = s.numPendingQueries + 1 ∧
      (reducer s a).numPendingMutations = s.numPendingMutations + 1 ∧
      lookupOr0 (reducer s a).pendingQueries
          a.payload.operation.operationName =
        lookupOr0 s.pendingQueries a.payload.operation.operationName + 1 ∧
      lookupOr0 (reducer s a).pendingMutations
          a.payload.operation.operationName =
        lookupOr0 s.pendingMutations a.payload.operation.operationName + 1) ∧
    (∀ (s : NetworkStatus) (a : NetworkStatusAction),
      isOperationType a.payload.operation .subscription = true →
      reducer s a = s) := by
  constructor
  · intro s a hq hm hs ht
    rcases a with ⟨ty, p⟩
    have hty : ty = .REQUEST := ht
    subst hty
    have hch : haveValuesChanged s ⟨.REQUEST, p⟩ = true := by
      simp [haveValuesChanged, pendingOperationsFresh, hq]
    simp only [reducer, hs, Bool.false_eq_true, if_false, ite_false, hch,
      if_true, ite_true]
    refine ⟨?_, ?_, ?_, ?_⟩
    · simp [numPendingOperationsByType, hq]
    · simp [numPendingOperationsByType, hm]
    · simp [pendingOperationsByType, hq, lookupOr0_setKey_self]
    · simp [pendingOperationsByType, hm, lookupOr0_setKey_self]
  · intro s a h
    simp [reducer, h]

/-- Witness for C10: a dual query+mutation REQUEST bumps all four
counters; a query+subscription CANCEL is ignored outright. -/
theorem c10_document_scan_witness :
    ((reducer initialState (requestQueryMutation "Both")).numPendingQueries =
        initialState.numPendingQueries + 1 ∧
     (reducer initialState (requestQueryMutation "Both")).numPendingMutations =
        initialState.numPendingMutations + 1 ∧
     lookupOr0 (reducer initialState
        (requestQueryMutation "Both")).pendingQueries "Both" =
       lookupOr0 initialState.pendingQueries "Both" + 1 ∧
     lookupOr0 (reducer initialState
        (requestQueryMutation "Both")).pendingMutations "Both" =
       lookupOr0 initialState.pendingMutations "Both" + 1) ∧
    reducer idleWithZeroCount (cancelQuerySubscription "S") =
      idleWithZeroCount :=
  ⟨c10_document_scan.1 initialState (requestQueryMutation "Both")
     (by decide) (by decide) (by decide) rfl,
   c10_document_scan.2 idleWithZeroCount (cancelQuerySubscription "S")
     (by decide)⟩
